import Mathlib

/-!
# Verification of the weight-tracker health dashboard

A shallow embedding of the data model and operations of the repository's two
scripts, `health_tracker.py` (the SQLite-backed tracker) and
`weight_tracker.py` (the in-memory session-state prototype), together with
theorems settling the specification's claims about them.

Modelling conventions:
* SQLite `REAL` values (weight, body fat) are modelled as `ℚ`; `INTEGER`
  values (ids, systolic, diastolic) as `ℕ` / `ℤ`; `TEXT` dates as `String`
  (ISO-8601 text, whose lexicographic order is chronological order, exactly
  how SQLite compares the `date TEXT` column).
* A nullable column is an `Option`.
* `SELECT * FROM t ORDER BY date ASC` is modelled as a stable sort by the
  `date` field of the table's rows in rowid (insertion) order, via
  `List.insertionSort`.
* pandas `NaN` propagation is modelled with `Option`: an aggregate over an
  empty column is `none`, and the source's `x if x < t else t` pattern takes
  the `else` branch on `NaN` because a `NaN` comparison is false.
-/

namespace WeightTracker

/-- A row of the `weights` table:
`id INTEGER PRIMARY KEY AUTOINCREMENT, date TEXT NOT NULL, weight REAL NOT NULL,
body_fat REAL, notes TEXT` (`health_tracker.py`, `init_db`). -/
structure WeightRow where
  id : Nat
  date : String
  weight : ℚ
  body_fat : Option ℚ
  notes : Option String
deriving Repr, DecidableEq

/-- A row of the `blood_pressure` table:
`id INTEGER PRIMARY KEY AUTOINCREMENT, date TEXT NOT NULL, systolic INTEGER NOT NULL,
diastolic INTEGER NOT NULL, notes TEXT` (`health_tracker.py`, `init_db`). -/
structure BPRow where
  id : Nat
  date : String
  systolic : Int
  diastolic : Int
  notes : Option String
deriving Repr, DecidableEq

/-- The durable SQLite database file `data/health_data.db`: the two tables in
rowid order, plus each table's autoincrement counter. -/
structure DBFile where
  weights : List WeightRow
  blood_pressure : List BPRow
  next_weight_id : Nat
  next_bp_id : Nat
deriving Repr, DecidableEq

/-- A live `sqlite3` connection: the committed on-disk state and the working
state holding uncommitted changes of the current transaction. -/
structure Conn where
  committed : DBFile
  working : DBFile
deriving Repr, DecidableEq

/-- `sqlite3.connect(DB_PATH)`. -/
def connect (f : DBFile) : Conn := ⟨f, f⟩

/-- `cursor.execute("INSERT INTO weights (date, weight, body_fat, notes) VALUES (?,?,?,?)", ...)`:
the new row joins the current transaction, not yet the durable file. -/
def executeInsertWeight (c : Conn) (entry_date : String) (weight : ℚ)
    (body_fat : Option ℚ) (notes : Option String) : Conn :=
  { c with working :=
    { c.working with
      weights := c.working.weights ++
        [⟨c.working.next_weight_id, entry_date, weight, body_fat, notes⟩],
      next_weight_id := c.working.next_weight_id + 1 } }

/-- `cursor.execute("INSERT INTO blood_pressure (date, systolic, diastolic, notes) VALUES (?,?,?,?)", ...)`. -/
def executeInsertBp (c : Conn) (entry_date : String) (systolic diastolic : Int)
    (notes : Option String) : Conn :=
  { c with working :=
    { c.working with
      blood_pressure := c.working.blood_pressure ++
        [⟨c.working.next_bp_id, entry_date, systolic, diastolic, notes⟩],
      next_bp_id := c.working.next_bp_id + 1 } }

/-- `conn.commit()`: the transaction's changes become durable. -/
def commit (c : Conn) : Conn := { c with committed := c.working }

/-- `conn.close()`: what remains afterwards is the durable file
(uncommitted changes are lost). -/
def close (c : Conn) : DBFile := c.committed

/-- `insert_weight(entry_date, weight, body_fat, notes)` of `health_tracker.py`:
connect, execute the INSERT, commit, close. -/
def insert_weight (f : DBFile) (entry_date : String) (weight : ℚ)
    (body_fat : Option ℚ) (notes : Option String) : DBFile :=
  close (commit (executeInsertWeight (connect f) entry_date weight body_fat notes))

/-- `insert_bp(entry_date, systolic, diastolic, notes)` of `health_tracker.py`. -/
def insert_bp (f : DBFile) (entry_date : String) (systolic diastolic : Int)
    (notes : Option String) : DBFile :=
  close (commit (executeInsertBp (connect f) entry_date systolic diastolic notes))

/-- `SELECT * FROM t ORDER BY date ASC`: a stable sort of the rows (scanned in
rowid order) by the `date` column. -/
def orderByDateAsc {α : Type} (dateOf : α → String) (rows : List α) : List α :=
  List.insertionSort (fun a b => dateOf a ≤ dateOf b) rows

/-- `load_weights()` of `health_tracker.py`. -/
def load_weights (f : DBFile) : List WeightRow :=
  orderByDateAsc (fun r => r.date) f.weights

/-- `load_bp()` of `health_tracker.py`. -/
def load_bp (f : DBFile) : List BPRow :=
  orderByDateAsc (fun r => r.date) f.blood_pressure

/-- A process restart: the Streamlit session is lost, but the SQLite file
`data/health_data.db` on disk is unchanged. -/
def restart (f : DBFile) : DBFile := f

/-- pandas `Series.min()`: the least element, or `none` for the `NaN` an empty
(or all-`NaN`) column yields. -/
def seriesMin {α : Type} [LinearOrder α] : List α → Option α
  | [] => none
  | x :: xs =>
    some (match seriesMin xs with
      | none => x
      | some m => min x m)

/-- pandas `Series.max()`: the greatest element, or `none` for `NaN`. -/
def seriesMax {α : Type} [LinearOrder α] : List α → Option α
  | [] => none
  | x :: xs =>
    some (match seriesMax xs with
      | none => x
      | some m => max x m)

/-- The source's `obs if obs < target else target` pattern (lines 141, 146,
239 of `health_tracker.py`): a `NaN` observed minimum compares as false, so
the `else` branch yields the target. -/
def minIfBelow {α : Type} [LinearOrder α] (obs : Option α) (target : α) : α :=
  match obs with
  | some m => if m < target then m else target
  | none => target

/-- `targetWeight = 100` (`health_tracker.py` line 139). -/
def targetWeight : ℚ := 100

/-- `minTargetBodyFat = 11` (line 144). -/
def minTargetBodyFat : ℚ := 11

/-- `maxTargetBodyFat = 20` (line 145). -/
def maxTargetBodyFat : ℚ := 20

/-- `minWeight = data["Weight"].min() if data["Weight"].min() < targetWeight else targetWeight`
(line 141). -/
def minWeight (ws : List ℚ) : ℚ :=
  minIfBelow (seriesMin ws) targetWeight

/-- `yaxis_range=[(minWeight-10),(maxWeight+10)]` for the weight chart
(line 160); the upper bound inherits `NaN` from an empty column. -/
def weightYAxisRange (ws : List ℚ) : ℚ × Option ℚ :=
  (minWeight ws - 10, (seriesMax ws).map (fun M => M + 10))

/-- The `Body Fat %` column as pandas aggregates see it: nulls (`NaN`) are
skipped by `min`/`max`. -/
def bodyFatValues (rows : List WeightRow) : List ℚ :=
  rows.filterMap (fun r => r.body_fat)

/-- `minBodyFat = data["Body Fat %"].min() if data["Body Fat %"].min() < minTargetBodyFat else minTargetBodyFat`
(line 146). -/
def minBodyFat (rows : List WeightRow) : ℚ :=
  minIfBelow (seriesMin (bodyFatValues rows)) minTargetBodyFat

/-- `yaxis_range=[(minBodyFat-5),(maxBodyFat+5)]` for the body-fat chart
(line 175). -/
def bodyFatYAxisRange (rows : List WeightRow) : ℚ × Option ℚ :=
  (minBodyFat rows - 5, (seriesMax (bodyFatValues rows)).map (fun M => M + 5))

/-- The blood-pressure chart range (lines 232-240 and 253): the four target
parameters are the code's local configuration constants; only the diastolic
minimum target enters the computed bounds.
`minDiastolic = ... if ... < minTargetDiastolic else minTargetDiastolic`,
`yaxis_range=[(minDiastolic-5),(maxSystolic+10)]`. -/
def pressureYAxisRange (minTargetSystolic maxTargetSystolic : Int)
    (minTargetDiastolic maxTargetDiastolic : Int)
    (sys dia : List Int) : Int × Option Int :=
  (minIfBelow (seriesMin dia) minTargetDiastolic - 5,
    (seriesMax sys).map (fun M => M + 10))

/-- The chart as instantiated in the source, with targets 100/120 and 60/80. -/
def pressureChartRange (sys dia : List Int) : Int × Option Int :=
  pressureYAxisRange 100 120 60 80 sys dia

/-- Helper for `rollingMean3`: with the two previous values `a`, `b` in hand,
emit the mean of each remaining value with its two predecessors. -/
def rollingMean3Aux : ℚ → ℚ → List ℚ → List (Option ℚ)
  | _, _, [] => []
  | a, b, x :: xs => some ((a + b + x) / 3) :: rollingMean3Aux b x xs

/-- `data["Weight"].rolling(window=3).mean()` (`weight_tracker.py` line 42):
a series aligned with the input where the first two positions are `NaN`
(`min_periods` defaults to the window size) and every later position is the
mean of itself and its two predecessors. -/
def rollingMean3 : List ℚ → List (Option ℚ)
  | [] => []
  | [_] => [none]
  | x :: y :: xs => none :: none :: rollingMean3Aux x y xs

/-- A numeric CSV cell. Exact numeric formatting is immaterial to the claims;
only the header names and the row order are at issue. -/
def ratCell (q : ℚ) : String :=
  if q.den = 1 then toString q.num else toString q.num ++ "/" ++ toString q.den

/-- `data.to_csv(index=False)` for the weight section (`health_tracker.py`
line 198): `data` is the date-ascending frame returned by `load_weights` whose
`date`/`weight`/`body_fat`/`notes` columns were renamed — the `id` column was
loaded by `SELECT *` and never dropped, so it is exported too. Each CSV row is
modelled as its list of cells. -/
def weightCsv (f : DBFile) : List (List String) :=
  ["id", "Date", "Weight", "Body Fat %", "Notes"] ::
    (load_weights f).map (fun r =>
      [toString r.id, r.date, ratCell r.weight,
        (r.body_fat.map ratCell).getD "", r.notes.getD ""])

/-- `data_bp.to_csv(index=False)` for the blood-pressure section (line 272):
again the ascending frame, `id` column included. -/
def bpCsv (f : DBFile) : List (List String) :=
  ["id", "Date", "Systolic", "Diastolic", "Notes"] ::
    (load_bp f).map (fun r =>
      [toString r.id, r.date, toString r.systolic, toString r.diastolic,
        r.notes.getD ""])

/-- Outcome of a form submission: `st.success(...)` after a successful insert,
or the `st.warning("Please enter a valid ...")` validation warning. -/
inductive SubmitResult where
  | success : SubmitResult
  | warning : SubmitResult
deriving Repr, DecidableEq

/-- The body-fat coercion `bodyfat if bodyfat > 0 else None` applied at the
`insert_weight` call site (`health_tracker.py` line 122, `weight_tracker.py`
line 29). -/
def coerceBodyFat (bodyfat : ℚ) : Option ℚ :=
  if bodyfat > 0 then some bodyfat else none

/-- The weight-form submission handler of `health_tracker.py` (lines 121-125):
`if add_button and weight > 0: insert_weight(...); st.success(...)`
`elif add_button: st.warning(...)`.
`weight`, `bodyfat` and `notes` come from `st.number_input` / `st.text_area`,
so they are always a number and a string (never null). -/
def weightFormSubmit (f : DBFile) (entry_date : String) (weight bodyfat : ℚ)
    (notes : String) : DBFile × SubmitResult :=
  if weight > 0 then
    (insert_weight f entry_date weight (coerceBodyFat bodyfat) (some notes),
      SubmitResult.success)
  else
    (f, SubmitResult.warning)

/-- The blood-pressure form submission handler of `health_tracker.py`
(lines 219-223): `if add_bp_button and systolic > 0 and diastolic > 0: insert_bp(...)`. -/
def bpFormSubmit (f : DBFile) (entry_date : String) (systolic diastolic : Int)
    (notes : String) : DBFile × SubmitResult :=
  if systolic > 0 ∧ diastolic > 0 then
    (insert_bp f entry_date systolic diastolic (some notes), SubmitResult.success)
  else
    (f, SubmitResult.warning)

end WeightTracker

namespace WeightTracker

/-- Stability of one `orderedInsert` step: inserting an element whose id is
below every equal-dated element of an id-stable list keeps the list id-stable
on equal dates. -/
theorem stable_orderedInsert {α : Type} (dateOf : α → String) (idOf : α → Nat)
    (x : α) (l : List α)
    (hl : l.Pairwise (fun a b => dateOf a = dateOf b → idOf a < idOf b))
    (hx : ∀ a ∈ l, dateOf a = dateOf x → idOf x < idOf a) :
    (List.orderedInsert (fun a b => dateOf a ≤ dateOf b) x l).Pairwise
      (fun a b => dateOf a = dateOf b → idOf a < idOf b) := by
  induction l with
  | nil => simp [List.orderedInsert]
  | cons y ys ih =>
    obtain ⟨hy, hys⟩ := List.pairwise_cons.mp hl
    by_cases h : dateOf x ≤ dateOf y
    · rw [List.orderedInsert, if_pos h]
      refine List.pairwise_cons.mpr ⟨?_, hl⟩
      intro a ha hda
      exact hx a ha hda.symm
    · rw [List.orderedInsert, if_neg h]
      refine List.pairwise_cons.mpr ⟨?_, ?_⟩
      · intro a ha hda
        rcases (List.mem_orderedInsert _).mp ha with rfl | ha
        · exact absurd (le_of_eq hda.symm) h
        · exact hy a ha hda
      · exact ih hys (fun a ha => hx a (List.mem_cons_of_mem y ha))

/-- Stability of the whole sort: on a list whose ids increase left to right
(rowid order), the date sort keeps equal-dated rows in id order. -/
theorem stable_orderByDateAsc {α : Type} (dateOf : α → String) (idOf : α → Nat)
    (l : List α) (h : l.Pairwise (fun a b => idOf a < idOf b)) :
    (orderByDateAsc dateOf l).Pairwise
      (fun a b => dateOf a = dateOf b → idOf a < idOf b) := by
  induction l with
  | nil => simp [orderByDateAsc, List.insertionSort]
  | cons x xs ih =>
    obtain ⟨hx, hxs⟩ := List.pairwise_cons.mp h
    rw [orderByDateAsc, List.insertionSort]
    refine stable_orderedInsert dateOf idOf x _ (ih hxs) ?_
    intro a ha _
    exact hx a ((List.mem_insertionSort _).mp ha)

/-- The date sort returns its input's rows sorted ascending by date. -/
theorem sorted_orderByDateAsc {α : Type} (dateOf : α → String) (l : List α) :
    (orderByDateAsc dateOf l).Pairwise (fun a b => dateOf a ≤ dateOf b) := by
  have ht : IsTotal α (fun a b => dateOf a ≤ dateOf b) := ⟨fun a b => le_total _ _⟩
  have htr : IsTrans α (fun a b => dateOf a ≤ dateOf b) :=
    ⟨fun _ _ _ hab hbc => le_trans hab hbc⟩
  exact List.sorted_insertionSort _ l

/-- The date sort is a permutation of its input. -/
theorem perm_orderByDateAsc {α : Type} (dateOf : α → String) (l : List α) :
    (orderByDateAsc dateOf l).Perm l :=
  List.perm_insertionSort _ l

/-- C1: submitting a weight `w ≤ 0` stores nothing and yields the validation
warning; submitting `w > 0` appends exactly one new entry carrying that
date and weight. -/
theorem weight_validation (f : DBFile) (d : String) (w b : ℚ) (n : String) :
    (w ≤ 0 →
      (weightFormSubmit f d w b n).1 = f ∧
      (weightFormSubmit f d w b n).1.weights.length = f.weights.length ∧
      (weightFormSubmit f d w b n).2 = SubmitResult.warning) ∧
    (0 < w →
      ∃ r : WeightRow,
        (weightFormSubmit f d w b n).1.weights = f.weights ++ [r] ∧
        r.date = d ∧ r.weight = w ∧
        (weightFormSubmit f d w b n).2 = SubmitResult.success) := by
  constructor
  · intro hw
    have hnot : ¬ w > 0 := not_lt.mpr hw
    simp [weightFormSubmit, hnot]
  · intro hw
    refine ⟨⟨f.next_weight_id, d, w, coerceBodyFat b, some n⟩, ?_, rfl, rfl, ?_⟩ <;>
      simp [weightFormSubmit, hw, insert_weight, close, commit, executeInsertWeight, connect]

/-- Witness for C1 at concrete inputs: a rejected submission with weight `0`
and an accepted one with weight `70`. -/
theorem weight_validation_witness :
    ((weightFormSubmit ⟨[], [], 1, 1⟩ "2024-01-01" 0 0 "").1 = ⟨[], [], 1, 1⟩ ∧
      (weightFormSubmit ⟨[], [], 1, 1⟩ "2024-01-01" 0 0 "").1.weights.length =
        (⟨[], [], 1, 1⟩ : DBFile).weights.length ∧
      (weightFormSubmit ⟨[], [], 1, 1⟩ "2024-01-01" 0 0 "").2 = SubmitResult.warning) ∧
    (∃ r : WeightRow,
      (weightFormSubmit ⟨[], [], 1, 1⟩ "2024-01-01" 70 0 "").1.weights =
        (⟨[], [], 1, 1⟩ : DBFile).weights ++ [r] ∧
      r.date = "2024-01-01" ∧ r.weight = 70 ∧
      (weightFormSubmit ⟨[], [], 1, 1⟩ "2024-01-01" 70 0 "").2 = SubmitResult.success) :=
  ⟨(weight_validation ⟨[], [], 1, 1⟩ "2024-01-01" 0 0 "").1 (by norm_num),
    (weight_validation ⟨[], [], 1, 1⟩ "2024-01-01" 70 0 "").2 (by norm_num)⟩

/-- C2: the store round-trips across a process restart — with no intervening
writes, reloading after a restart yields the identical ordered sequences — and
each `insert_weight` / `insert_bp` has committed its row to the durable file by
the time it returns, so the row survives a crash right after the return. -/
theorem persistence_round_trip (f : DBFile) (d : String) (w : ℚ) (b : Option ℚ)
    (sys dia : Int) (n : Option String) :
    (load_weights (restart f) = load_weights f ∧ load_bp (restart f) = load_bp f) ∧
    (insert_weight f d w b n).weights = f.weights ++ [⟨f.next_weight_id, d, w, b, n⟩] ∧
    restart (insert_weight f d w b n) = insert_weight f d w b n ∧
    (insert_bp f d sys dia n).blood_pressure =
      f.blood_pressure ++ [⟨f.next_bp_id, d, sys, dia, n⟩] ∧
    restart (insert_bp f d sys dia n) = insert_bp f d sys dia n := by
  refine ⟨⟨rfl, rfl⟩, rfl, rfl, rfl, rfl⟩

/-- C3: `load_weights` and `load_bp` return exactly the stored rows, sorted
ascending by date; when the stored rows carry increasing ids (rowid/insertion
order, an invariant of the autoincrement key), equal-dated rows come back in id
order. -/
theorem load_ordered (f : DBFile) :
    (load_weights f).Perm f.weights ∧
    (load_weights f).Pairwise (fun a b => a.date ≤ b.date) ∧
    (f.weights.Pairwise (fun a b => a.id < b.id) →
      (load_weights f).Pairwise (fun a b => a.date = b.date → a.id < b.id)) ∧
    (load_bp f).Perm f.blood_pressure ∧
    (load_bp f).Pairwise (fun a b => a.date ≤ b.date) ∧
    (f.blood_pressure.Pairwise (fun a b => a.id < b.id) →
      (load_bp f).Pairwise (fun a b => a.date = b.date → a.id < b.id)) := by
  refine ⟨perm_orderByDateAsc _ _, sorted_orderByDateAsc _ _, ?_,
    perm_orderByDateAsc _ _, sorted_orderByDateAsc _ _, ?_⟩
  · intro h
    exact stable_orderByDateAsc (fun r => r.date) (fun r => r.id) f.weights h
  · intro h
    exact stable_orderByDateAsc (fun r => r.date) (fun r => r.id) f.blood_pressure h

/-- A concrete store used to witness C3: three weight rows in rowid order, the
last two sharing a date. -/
def sampleSortDb : DBFile :=
  ⟨[⟨1, "2024-01-02", 80, none, none⟩,
    ⟨2, "2024-01-01", 81, none, none⟩,
    ⟨3, "2024-01-01", 82, none, none⟩],
   [⟨1, "2024-01-02", 120, 80, none⟩,
    ⟨2, "2024-01-01", 118, 79, none⟩], 4, 3⟩

/-- Witness for C3 at a concrete store with a date tie. -/
theorem load_ordered_witness :
    (load_weights sampleSortDb).Pairwise (fun a b => a.date = b.date → a.id < b.id) ∧
    (load_bp sampleSortDb).Pairwise (fun a b => a.date = b.date → a.id < b.id) :=
  ⟨(load_ordered sampleSortDb).2.2.1 (by decide),
    (load_ordered sampleSortDb).2.2.2.2.2 (by decide)⟩

/-- C4: an accepted weight submission stores body fat as null exactly when the
entered value is 0 (the widget's value when left untouched, its minimum), and
stores the entered value itself when it is positive; a stored body fat is never
0. -/
theorem body_fat_coercion (f : DBFile) (d : String) (w b : ℚ) (n : String)
    (hw : 0 < w) :
    ∃ r : WeightRow,
      (weightFormSubmit f d w b n).1.weights = f.weights ++ [r] ∧
      (b = 0 → r.body_fat = none) ∧
      (b ≤ 0 → r.body_fat = none) ∧
      (0 < b → r.body_fat = some b) ∧
      r.body_fat ≠ some 0 := by
  refine ⟨⟨f.next_weight_id, d, w, coerceBodyFat b, some n⟩, ?_, ?_, ?_, ?_, ?_⟩
  · simp [weightFormSubmit, hw, insert_weight, close, commit, executeInsertWeight, connect]
  · rintro rfl
    simp [coerceBodyFat]
  · intro hb
    simp [coerceBodyFat, not_lt.mpr hb]
  · intro hb
    simp [coerceBodyFat, hb]
  · by_cases hb : b > 0
    · simp only [coerceBodyFat, if_pos hb, ne_eq, Option.some.injEq]
      exact fun h => absurd (h ▸ hb) (lt_irrefl 0)
    · simp [coerceBodyFat, hb]

/-- Witness for C4 at concrete inputs: weight 70 with body fat 0 is stored with
a null body fat. -/
theorem body_fat_coercion_witness :
    ∃ r : WeightRow,
      (weightFormSubmit ⟨[], [], 1, 1⟩ "2024-01-01" 70 0 "").1.weights =
        (⟨[], [], 1, 1⟩ : DBFile).weights ++ [r] ∧
      ((0 : ℚ) = 0 → r.body_fat = none) ∧
      ((0 : ℚ) ≤ 0 → r.body_fat = none) ∧
      ((0 : ℚ) < 0 → r.body_fat = some 0) ∧
      r.body_fat ≠ some 0 :=
  body_fat_coercion ⟨[], [], 1, 1⟩ "2024-01-01" 70 0 "" (by norm_num)

/-- On a present (non-`NaN`) observed minimum, the source's
`obs if obs < target else target` is exactly `min obs target`. -/
theorem minIfBelow_some {α : Type} [LinearOrder α] (m target : α) :
    minIfBelow (some m) target = min m target := by
  by_cases h : m < target
  · simp [minIfBelow, h, min_eq_left h.le]
  · simp [minIfBelow, h, min_eq_right (not_lt.mp h)]

/-- C6: on a non-empty weight column with minimum `m` and maximum `M`, the
weight chart's axis range is `[min(m, 100) - 10, M + 10]`. -/
theorem weight_axis_range (ws : List ℚ) (m M : ℚ)
    (hm : seriesMin ws = some m) (hM : seriesMax ws = some M) :
    weightYAxisRange ws = (min m targetWeight - 10, some (M + 10)) ∧
    targetWeight = 100 := by
  refine ⟨?_, rfl⟩
  rw [weightYAxisRange, minWeight, hm, hM, minIfBelow_some]
  rfl

/-- Witness for C6 at the spec's own example: data with minimum 65 and
maximum 90 gives the range `[55, 100]`. -/
theorem weight_axis_range_witness :
    weightYAxisRange [(65 : ℚ), 90] = (55, some 100) := by
  have h := (weight_axis_range [(65 : ℚ), 90] 65 90
    (by norm_num [seriesMin]) (by norm_num [seriesMax])).1
  rw [h]
  norm_num [targetWeight]

/-- C7: on non-empty systolic and diastolic columns, the pressure chart's axis
range is `[min(minDiastolic, 60) - 5, maxSystolic + 10]`, and the two systolic
target parameters do not affect it. -/
theorem pressure_axis_range (s1 s2 t1 t2 : Int) (sys dia : List Int) (m M : Int)
    (hm : seriesMin dia = some m) (hM : seriesMax sys = some M) :
    pressureYAxisRange s1 s2 60 80 sys dia = (min m 60 - 5, some (M + 10)) ∧
    pressureYAxisRange s1 s2 60 80 sys dia = pressureYAxisRange t1 t2 60 80 sys dia ∧
    pressureChartRange sys dia = (min m 60 - 5, some (M + 10)) := by
  have key : pressureYAxisRange s1 s2 60 80 sys dia = (min m 60 - 5, some (M + 10)) := by
    rw [pressureYAxisRange, hm, hM, minIfBelow_some]
    rfl
  refine ⟨key, rfl, ?_⟩
  rw [pressureChartRange, pressureYAxisRange, hm, hM, minIfBelow_some]
  rfl

/-- Witness for C7 at a concrete reading: systolic 110, diastolic 70 gives the
range `[55, 120]` whatever the systolic targets are. -/
theorem pressure_axis_range_witness :
    pressureChartRange [(110 : Int)] [(70 : Int)] = (55, some 120) := by
  have h := (pressure_axis_range 100 120 0 0 [(110 : Int)] [(70 : Int)] 70 110
    (by norm_num [seriesMin]) (by norm_num [seriesMax])).2.2
  rw [h]
  norm_num

/-- C9: on a non-empty weight table whose body-fat column is entirely null,
the body-fat chart's lower bound is `minTargetBodyFat - 5 = 6`: the all-`NaN`
minimum compares as not below the target, so the target is used, rather than
the chart being skipped as a no-data state. -/
theorem body_fat_axis_all_null (rows : List WeightRow) (hne : rows ≠ [])
    (hnull : ∀ r ∈ rows, r.body_fat = none) :
    (bodyFatYAxisRange rows).1 = minTargetBodyFat - 5 ∧
    (bodyFatYAxisRange rows).1 = 6 := by
  have hvals : bodyFatValues rows = [] := by
    rw [bodyFatValues, List.filterMap_eq_nil_iff]
    intro r hr
    rw [hnull r hr]
  constructor <;>
    simp [bodyFatYAxisRange, minBodyFat, hvals, seriesMin, minIfBelow, minTargetBodyFat] <;>
    norm_num

/-- The helper's output has one position per remaining value. -/
theorem length_rollingMean3Aux (a b : ℚ) (xs : List ℚ) :
    (rollingMean3Aux a b xs).length = xs.length := by
  induction xs generalizing a b with
  | nil => rfl
  | cons x xs ih => simp [rollingMean3Aux, ih]

/-- The rolling-trend series is aligned with the input series. -/
theorem length_rollingMean3 (xs : List ℚ) :
    (rollingMean3 xs).length = xs.length := by
  match xs with
  | [] => rfl
  | [x] => rfl
  | x :: y :: xs => simp [rollingMean3, length_rollingMean3Aux]

/-- At position `k` of the remaining values, the helper emits the mean of the
three consecutive values starting at position `k` of the full series. -/
theorem rollingMean3Aux_getD (a b : ℚ) (xs : List ℚ) (k : Nat)
    (hk : k < xs.length) :
    (rollingMean3Aux a b xs).getD k none =
      some (((a :: b :: xs).getD k 0 + (a :: b :: xs).getD (k + 1) 0 +
        (a :: b :: xs).getD (k + 2) 0) / 3) := by
  induction xs generalizing a b k with
  | nil => exact absurd hk (by simp)
  | cons x xs ih =>
    cases k with
    | zero => simp [rollingMean3Aux]
    | succ k =>
      have hk' : k < xs.length := by simpa using hk
      calc (rollingMean3Aux a b (x :: xs)).getD (k + 1) none
          = (rollingMean3Aux b x xs).getD k none := by
            simp [rollingMean3Aux]
        _ = some (((b :: x :: xs).getD k 0 + (b :: x :: xs).getD (k + 1) 0 +
            (b :: x :: xs).getD (k + 2) 0) / 3) := ih b x k hk'
        _ = some (((a :: b :: x :: xs).getD (k + 1) 0 +
            (a :: b :: x :: xs).getD (k + 1 + 1) 0 +
            (a :: b :: x :: xs).getD (k + 1 + 2) 0) / 3) := by
            simp [List.getD_cons_succ]

/-- C5: the rolling trend with window 3 is aligned index-by-index with the
input; positions 0 and 1 (fewer than two prior entries) carry no value, and
every position `i ≥ 2` carries the mean of the entries at `i-2`, `i-1`, `i`;
over `[70, 71, 72, 73]` it is `[none, none, 71.0, 72.0]`. -/
theorem rolling_trend (xs : List ℚ) (i : Nat) (hi : i < xs.length) :
    (rollingMean3 xs).length = xs.length ∧
    (i < 2 → (rollingMean3 xs).getD i none = none) ∧
    (2 ≤ i → (rollingMean3 xs).getD i none =
      some ((xs.getD (i - 2) 0 + xs.getD (i - 1) 0 + xs.getD i 0) / 3)) ∧
    rollingMean3 [70, 71, 72, 73] = [none, none, some 71, some 72] := by
  refine ⟨length_rollingMean3 xs, ?_, ?_, ?_⟩
  · intro h2
    match xs, i with
    | [], _ => exact absurd hi (by simp)
    | [x], 0 => rfl
    | [x], i + 1 => exact absurd hi (by simp)
    | x :: y :: xs, 0 => rfl
    | x :: y :: xs, 1 => rfl
    | x :: y :: xs, i + 2 => omega
  · intro h2
    match xs, i, h2 with
    | [], i, h2 => exact absurd hi (by simp)
    | [x], i, h2 => exact absurd hi (by simp; omega)
    | x :: y :: xs, k + 2, h2 =>
      have hk : k < xs.length := by simpa using hi
      calc (rollingMean3 (x :: y :: xs)).getD (k + 2) none
          = (rollingMean3Aux x y xs).getD k none := by
            simp [rollingMean3]
        _ = some (((x :: y :: xs).getD k 0 + (x :: y :: xs).getD (k + 1) 0 +
            (x :: y :: xs).getD (k + 2) 0) / 3) := rollingMean3Aux_getD x y xs k hk
        _ = some (((x :: y :: xs).getD (k + 2 - 2) 0 +
            (x :: y :: xs).getD (k + 2 - 1) 0 +
            (x :: y :: xs).getD (k + 2) 0) / 3) := by norm_num
  · show rollingMean3 [70, 71, 72, 73] = [none, none, some 71, some 72]
    norm_num [rollingMean3, rollingMean3Aux]

/-- Witness for C5 at the spec's example `[70, 71, 72, 73]`, position 2. -/
theorem rolling_trend_witness :
    (rollingMean3 [70, 71, 72, 73]).getD 2 none =
      some ((([70, 71, 72, 73] : List ℚ).getD 0 0 +
        ([70, 71, 72, 73] : List ℚ).getD 1 0 +
        ([70, 71, 72, 73] : List ℚ).getD 2 0) / 3) :=
  (rolling_trend [70, 71, 72, 73] 2 (by norm_num)).2.2.1 (by norm_num)

/-- Witness for C9 at a concrete one-row table with a null body fat. -/
theorem body_fat_axis_all_null_witness :
    (bodyFatYAxisRange [⟨1, "2024-01-01", 80, none, none⟩]).1 = 6 :=
  (body_fat_axis_all_null [⟨1, "2024-01-01", 80, none, none⟩] (by simp)
    (by simp)).2

/-- A concrete store used against C8: two weight rows on distinct dates. -/
def sampleCsvDb : DBFile :=
  ⟨[⟨1, "2024-01-01", 80, none, some "a"⟩,
    ⟨2, "2024-01-02", 79, none, some "b"⟩], [], 3, 1⟩

/-- The sample store is already date-ascending, so loading returns its rows
as stored. -/
theorem load_sampleCsvDb : load_weights sampleCsvDb = sampleCsvDb.weights := by
  have hle : ("2024-01-01" : String) ≤ "2024-01-02" :=
    String.le_iff_toList_le.mpr (by decide)
  show List.insertionSort _ _ = _
  simp [sampleCsvDb, List.insertionSort, List.orderedInsert, hle]

/-- C8 fails on the code: at a concrete two-row store, the exported header is
not `Date,Weight,Body Fat %,Notes` (the `id` column is exported too), and the
data rows come out in ascending-date order, not descending. -/
theorem csv_export_counterexample :
    (weightCsv sampleCsvDb).head? ≠ some ["Date", "Weight", "Body Fat %", "Notes"] ∧
    (weightCsv sampleCsvDb).map (fun row => row.getD 1 "") =
      ["Date", "2024-01-01", "2024-01-02"] := by
  constructor
  · decide
  · rw [weightCsv, load_sampleCsvDb]
    rfl

/-- C8 (amended): the CSV export artifact consists of a header row naming the
exported frame's columns — the `id` column followed by the displayed columns
(`id,Date,Weight,Body Fat %,Notes` resp. `id,Date,Systolic,Diastolic,Notes`) —
followed by one row per record in ascending-date order. -/
theorem csv_export_amended (f : DBFile) :
    (weightCsv f).head? = some ["id", "Date", "Weight", "Body Fat %", "Notes"] ∧
    (weightCsv f).tail.length = f.weights.length ∧
    ((weightCsv f).tail.map (fun row => row.getD 1 "")).Pairwise (fun a b => a ≤ b) ∧
    (bpCsv f).head? = some ["id", "Date", "Systolic", "Diastolic", "Notes"] ∧
    (bpCsv f).tail.length = f.blood_pressure.length ∧
    ((bpCsv f).tail.map (fun row => row.getD 1 "")).Pairwise (fun a b => a ≤ b) := by
  refine ⟨rfl, ?_, ?_, rfl, ?_, ?_⟩
  · simp only [weightCsv, List.tail_cons, List.length_map]
    exact (perm_orderByDateAsc (fun r => r.date) f.weights).length_eq
  · simp only [weightCsv, List.tail_cons, List.map_map]
    rw [List.pairwise_map]
    exact sorted_orderByDateAsc (fun r : WeightRow => r.date) f.weights
  · simp only [bpCsv, List.tail_cons, List.length_map]
    exact (perm_orderByDateAsc (fun r => r.date) f.blood_pressure).length_eq
  · simp only [bpCsv, List.tail_cons, List.map_map]
    rw [List.pairwise_map]
    exact sorted_orderByDateAsc (fun r : BPRow => r.date) f.blood_pressure

/-- C10: every record the entry forms create stores the notes field as a
string value (`st.text_area` always yields a string, the empty string when
left blank), so for rows created by this program the nullable notes column is
never null. -/
theorem notes_never_null (f : DBFile) (d : String) (w b : ℚ) (n : String)
    (sys dia : Int) (hw : 0 < w) (hs : 0 < sys) (hd : 0 < dia) :
    (∃ r : WeightRow,
      (weightFormSubmit f d w b n).1.weights = f.weights ++ [r] ∧
      r.notes = some n) ∧
    (∃ r : BPRow,
      (bpFormSubmit f d sys dia n).1.blood_pressure = f.blood_pressure ++ [r] ∧
      r.notes = some n) ∧
    some n ≠ (none : Option String) := by
  refine ⟨⟨⟨f.next_weight_id, d, w, coerceBodyFat b, some n⟩, ?_, rfl⟩,
    ⟨⟨f.next_bp_id, d, sys, dia, some n⟩, ?_, rfl⟩, by simp⟩
  · simp [weightFormSubmit, hw, insert_weight, close, commit, executeInsertWeight, connect]
  · simp [bpFormSubmit, hs, hd, insert_bp, close, commit, executeInsertBp, connect]

/-- Witness for C10 at concrete inputs with blank notes: the stored notes are
the empty string, not null. -/
theorem notes_never_null_witness :
    (∃ r : WeightRow,
      (weightFormSubmit ⟨[], [], 1, 1⟩ "2024-01-01" 70 0 "").1.weights =
        (⟨[], [], 1, 1⟩ : DBFile).weights ++ [r] ∧
      r.notes = some "") ∧
    (∃ r : BPRow,
      (bpFormSubmit ⟨[], [], 1, 1⟩ "2024-01-01" 120 80 "").1.blood_pressure =
        (⟨[], [], 1, 1⟩ : DBFile).blood_pressure ++ [r] ∧
      r.notes = some "") ∧
    some "" ≠ (none : Option String) :=
  notes_never_null ⟨[], [], 1, 1⟩ "2024-01-01" 70 0 "" 120 80
    (by norm_num) (by norm_num) (by norm_num)

end WeightTracker
